import Mathlib

/-!
Shallow embedding of the `MockBleManager` class of
react-native-ble-plx-mock (`src/BleManagerMock.ts`).

Modelling conventions:
* JS `Map`s are insertion-ordered association lists (`List (String × α)`)
  with `jsGet` / `jsSet` / `jsHas` / `jsDelete` reproducing `get` / `set` /
  `has` / `delete`; the JS `Set` of connected device ids is a `List String`.
* Listener callbacks are identified by natural-number ids; invoking a
  listener is recorded as an `Event` value in the list of events an
  operation emits, in invocation order.
* The arrays stored in `monitoredCharacteristics` have observable object
  identity (the subscription's `remove` closure captures the array that was
  current at registration time), so they live in an explicit array store
  `monitorArrays`, and the map holds array indices.
* Async functions become pure functions returning
  `Except MockError α × ManagerState × List Event`; a JS `throw` inside an
  async method is an `.error` result.  Injected delays (`setTimeout`) never
  change the value an operation eventually settles with, so operations model
  the settled outcome directly.
* JS truthiness at the few places the source relies on it (`|| 512`,
  `|| 517`, `value || null`) is modelled explicitly (`numOr`, `truthyStr`):
  the number 0 and the empty string are falsy.
-/

namespace BleMock

/-- Adapter state union type of the source. -/
inductive State where
  | Unknown
  | Resetting
  | Unsupported
  | Unauthorized
  | PoweredOff
  | PoweredOn
  deriving DecidableEq, Repr

/-- JS `Error` objects are modelled by their message; the manager stores and
re-raises injected error values unchanged. -/
structure MockError where
  message : String
  deriving DecidableEq, Repr

/-- Lookup in a JS-Map-like association list (`Map.get`). -/
def jsGet {α : Type} : List (String × α) → String → Option α
  | [], _ => none
  | p :: t, k => if p.1 == k then some p.2 else jsGet t k

/-- Key-presence test (`Map.has`). -/
def jsHas {α : Type} (m : List (String × α)) (k : String) : Bool :=
  (jsGet m k).isSome

/-- Insertion-order-preserving update (`Map.set`): replaces the value in
place when the key exists, appends otherwise. -/
def jsSet {α : Type} : List (String × α) → String → α → List (String × α)
  | [], k, v => [(k, v)]
  | p :: t, k, v => if p.1 == k then (k, v) :: t else p :: jsSet t k v

/-- Key removal (`Map.delete`). -/
def jsDelete {α : Type} : List (String × α) → String → List (String × α)
  | [], _ => []
  | p :: t, k => if p.1 == k then jsDelete t k else p :: jsDelete t k

/-- JS `Set.add` (insertion ordered, no duplicates). -/
def jsSetAdd (s : List String) (x : String) : List String :=
  if s.contains x then s else s ++ [x]

/-- JS `Set.delete`. -/
def jsSetDelete (s : List String) (x : String) : List String :=
  s.filter (fun y => y != x)

/-- Numeric map-lookup default via JS truthiness: `o || d` where the stored
number 0 is falsy (used for `|| 512`, `|| 517`, `|| 0`). -/
def numOr (o : Option Nat) (d : Nat) : Nat :=
  match o with
  | some n => if n = 0 then d else n
  | none => d

/-- String truthiness: `s || null` collapses both `undefined` and the empty
string to `null`. -/
def truthyStr (o : Option String) : Option String :=
  match o with
  | some s => if s = "" then none else some s
  | none => none

/-- Value-map lookup as the source writes it: `values.get(key) || null`. -/
def truthyGet (m : List (String × String)) (k : String) : Option String :=
  truthyStr (jsGet m k)

/-- `CharacteristicProperties` record of the source. -/
structure CharacteristicProperties where
  broadcast : Option Bool := none
  read : Option Bool := none
  writeWithoutResponse : Option Bool := none
  write : Option Bool := none
  notify : Option Bool := none
  indicate : Option Bool := none
  authenticatedSignedWrites : Option Bool := none
  extendedProperties : Option Bool := none
  deriving DecidableEq, Repr

/-- `Descriptor` record of the source. -/
structure Descriptor where
  uuid : String
  characteristicUUID : String
  serviceUUID : String
  deviceID : String
  value : Option String
  deriving DecidableEq, Repr

/-- `DescriptorMetadata` record of the source. -/
structure DescriptorMetadata where
  uuid : String
  value : Option String := none
  isReadable : Option Bool := none
  isWritable : Option Bool := none
  deriving DecidableEq, Repr

/-- `Characteristic` record of the source; optional fields the source leaves
`undefined` are `none`. -/
structure Characteristic where
  uuid : String
  serviceUUID : String
  deviceID : String
  value : Option String
  isNotifiable : Bool
  isIndicatable : Bool
  isNotifying : Option Bool := none
  isReadable : Option Bool := none
  isWritableWithResponse : Option Bool := none
  isWritableWithoutResponse : Option Bool := none
  properties : Option CharacteristicProperties := none
  descriptors : Option (List Descriptor) := none
  deriving DecidableEq, Repr

/-- `Service` record of the source. -/
structure Service where
  uuid : String
  deviceID : String
  isPrimary : Option Bool := none
  includedServices : Option (List String) := none
  deriving DecidableEq, Repr

/-- `CharacteristicMetadata` record of the source. -/
structure CharacteristicMetadata where
  uuid : String
  isReadable : Option Bool := none
  isWritableWithResponse : Option Bool := none
  isWritableWithoutResponse : Option Bool := none
  isNotifiable : Option Bool := none
  isIndicatable : Option Bool := none
  isNotifying : Option Bool := none
  properties : Option CharacteristicProperties := none
  descriptors : Option (List DescriptorMetadata) := none
  deriving DecidableEq, Repr

/-- `ServiceMetadata` record of the source. -/
structure ServiceMetadata where
  uuid : String
  characteristics : List CharacteristicMetadata
  deriving DecidableEq, Repr

/-- `MockDevice` record of the source.  The `services` async closure a
registered device carries is fully determined by the `ServiceMetadata` list
captured at registration, so it is modelled by that list (`servicesMeta`);
`none` models an absent closure. -/
structure MockDevice where
  id : String
  name : Option String := none
  rssi : Option Int := none
  mtu : Nat := 517
  manufacturerData : Option String := none
  serviceData : Option (List (String × String)) := none
  serviceUUIDs : Option (List String) := none
  isConnectable : Option Bool := none
  servicesMeta : Option (List ServiceMetadata) := none
  deriving DecidableEq, Repr

/-- `ScanOptions` record of the source. -/
structure ScanOptions where
  allowDuplicates : Option Bool := none
  deriving DecidableEq, Repr

/-- `ConnectionOptions` record of the source. -/
structure ConnectionOptions where
  autoConnect : Option Bool := none
  requestMTU : Option Nat := none
  deriving DecidableEq, Repr

/-- Observable listener invocations.  Each constructor records one callback
call: the listener id (where several listeners can exist for a key), the
error argument and the device/characteristic argument. -/
inductive Event where
  | scan (error : Option MockError) (device : Option MockDevice)
  | connection (listener : Nat) (error : Option MockError) (device : Option MockDevice)
  | mtuChanged (listener : Nat) (mtu : Nat)
  | write (listener : Nat) (value : String)
  | monitorScheduled (listener : Nat) (char : Characteristic)
  | monitorNotify (listener : Nat) (error : Option MockError) (char : Option Characteristic)
  deriving DecidableEq, Repr

/-- Subscription returned by `monitorCharacteristicForDevice`: the `remove`
closure captures the listener-array object current at registration time
(index `arrId` into the array store), the listener itself, and the key. -/
structure MonitorSubscription where
  arrId : Nat
  listener : Nat
  key : String
  deriving DecidableEq, Repr

/-- Instance state of the `MockBleManager` class, field initialisers
matching the source (timers are modelled by their armed/parameter data). -/
structure ManagerState where
  currentState : State := .PoweredOn
  scanListener : Bool := false
  isScanning : Bool := false
  discoveredDevices : List (String × MockDevice) := []
  scanOptions : ScanOptions := {}
  scanUUIDs : Option (List String) := none
  scanIntervalArmed : Bool := false
  discoveryInterval : Nat := 800
  monitoredCharacteristics : List (String × Nat) := []
  monitorArrays : List (List Nat) := []
  characteristicValues : List (String × String) := []
  notificationIntervals : List (String × Nat) := []
  readDelays : List (String × Nat) := []
  readErrors : List (String × MockError) := []
  writeWithResponseDelays : List (String × Nat) := []
  writeWithoutResponseDelays : List (String × Nat) := []
  writeWithResponseErrors : List (String × MockError) := []
  writeWithoutResponseErrors : List (String × MockError) := []
  writeListeners : List (String × Nat) := []
  connectedDevices : List String := []
  connectionListeners : List (String × List Nat) := []
  connectionDelays : List (String × Nat) := []
  connectionErrors : List (String × MockError) := []
  disconnectionErrors : List (String × MockError) := []
  scanErrorSimulation : Option MockError := none
  mtuListeners : List (String × List Nat) := []
  deviceMaxMTUs : List (String × Nat) := []
  discoveredServices : List (String × List Service) := []
  serviceMetadata : List (String × List ServiceMetadata) := []
  descriptorValues : List (String × String) := []
  descriptorErrors : List (String × MockError) := []
  deriving DecidableEq, Repr

/-- Fresh manager, as constructed with no options. -/
def initialManagerState : ManagerState := {}

/-- `getCharacteristicKey` of the source. -/
def getCharacteristicKey (deviceId serviceUUID characteristicUUID : String) : String :=
  deviceId ++ "|" ++ serviceUUID ++ "|" ++ characteristicUUID

/-- `getDescriptorKey` of the source. -/
def getDescriptorKey (deviceId serviceUUID characteristicUUID descriptorUUID : String) : String :=
  deviceId ++ "|" ++ serviceUUID ++ "|" ++ characteristicUUID ++ "|" ++ descriptorUUID

/-- `simulateScanError`. -/
def simulateScanError (st : ManagerState) (error : MockError) : ManagerState :=
  { st with scanErrorSimulation := some error }

/-- `clearAllSimulatedErrors`: resets the scan-error flag and clears the
connection, read, both write, and disconnection error maps (and nothing
else). -/
def clearAllSimulatedErrors (st : ManagerState) : ManagerState :=
  { st with
    scanErrorSimulation := none
    connectionErrors := []
    readErrors := []
    writeWithResponseErrors := []
    writeWithoutResponseErrors := []
    disconnectionErrors := [] }

/-- `setDeviceMaxMTU`. -/
def setDeviceMaxMTU (st : ManagerState) (deviceId : String) (maxMTU : Nat) : ManagerState :=
  { st with deviceMaxMTUs := jsSet st.deviceMaxMTUs deviceId maxMTU }

/-- `onMTUChanged` listener registration (push onto the per-device list). -/
def onMTUChanged (st : ManagerState) (deviceId : String) (listener : Nat) : ManagerState :=
  let listeners := ((jsGet st.mtuListeners deviceId).getD []) ++ [listener]
  { st with mtuListeners := jsSet st.mtuListeners deviceId listeners }

/-- `notifyMTUChange`: one `mtuChanged` event per registered listener. -/
def notifyMTUChange (st : ManagerState) (deviceId : String) (mtu : Nat) : List Event :=
  ((jsGet st.mtuListeners deviceId).getD []).map (fun l => Event.mtuChanged l mtu)

/-- `isDeviceConnected`. -/
def isDeviceConnected (st : ManagerState) (deviceIdentifier : String) : Bool :=
  st.connectedDevices.contains deviceIdentifier

/-- `requestMTUForDevice`: connected check, registry check, then
`min(requested, deviceMaxMTUs.get(id) || 512)` is written to the stored
device and MTU listeners fire. -/
def requestMTUForDevice (st : ManagerState) (deviceIdentifier : String) (mtu : Nat) :
    Except MockError MockDevice × ManagerState × List Event :=
  if isDeviceConnected st deviceIdentifier = false then
    (.error ⟨"Device not connected"⟩, st, [])
  else
    match jsGet st.discoveredDevices deviceIdentifier with
    | none => (.error ⟨"Device not found"⟩, st, [])
    | some device =>
      let maxMTU := numOr (jsGet st.deviceMaxMTUs deviceIdentifier) 512
      let actualMTU := min mtu maxMTU
      let device1 := { device with mtu := actualMTU }
      let st1 := { st with discoveredDevices := jsSet st.discoveredDevices deviceIdentifier device1 }
      (.ok device1, st1, notifyMTUChange st deviceIdentifier actualMTU)

/-- `onDeviceDisconnected` listener registration (push onto the per-device
list; the returned remove closure is not needed by any claim). -/
def onDeviceDisconnected (st : ManagerState) (deviceIdentifier : String) (listener : Nat) :
    ManagerState :=
  let listeners := ((jsGet st.connectionListeners deviceIdentifier).getD []) ++ [listener]
  { st with connectionListeners := jsSet st.connectionListeners deviceIdentifier listeners }

/-- `notifyConnectionListeners`: one `connection` event per registered
listener for the device. -/
def notifyConnectionListeners (st : ManagerState) (deviceIdentifier : String)
    (error : Option MockError) (device : Option MockDevice) : List Event :=
  ((jsGet st.connectionListeners deviceIdentifier).getD []).map
    (fun l => Event.connection l error device)

/-- `connectToDevice`.  Check order as in the source: adapter powered on,
device registered, connectable flag, injected connection error; then the
optional MTU negotiation (`if (options?.requestMTU)` — skipped when the
requested value is 0, which is falsy), then the device is added to the
connected set and connection listeners fire with `(null, device)`.  The
restoration-snapshot write touches only the module-global store, not the
manager state. -/
def connectToDevice (st : ManagerState) (deviceIdentifier : String)
    (options : Option ConnectionOptions) :
    Except MockError MockDevice × ManagerState × List Event :=
  if st.currentState ≠ State.PoweredOn then
    (.error ⟨"Bluetooth is not powered on"⟩, st, [])
  else
    match jsGet st.discoveredDevices deviceIdentifier with
    | none => (.error ⟨"Device " ++ deviceIdentifier ++ " not found"⟩, st, [])
    | some device =>
      if device.isConnectable = some false then
        (.error ⟨"Device " ++ deviceIdentifier ++ " is not connectable"⟩, st, [])
      else
        match jsGet st.connectionErrors deviceIdentifier with
        | some error => (.error error, st, [])
        | none =>
          let step :=
            match options.bind (fun o => o.requestMTU) with
            | some requested =>
              if requested = 0 then (st, device, ([] : List Event))
              else
                let maxMTU := numOr (jsGet st.deviceMaxMTUs deviceIdentifier) 512
                let actualMTU := min requested maxMTU
                let device1 := { device with mtu := actualMTU }
                let st1 := { st with
                  discoveredDevices := jsSet st.discoveredDevices deviceIdentifier device1 }
                (st1, device1, notifyMTUChange st deviceIdentifier actualMTU)
            | none => (st, device, ([] : List Event))
          let st1 := step.1
          let device1 := step.2.1
          let st2 := { st1 with connectedDevices := jsSetAdd st1.connectedDevices deviceIdentifier }
          (.ok device1, st2,
           step.2.2 ++ notifyConnectionListeners st deviceIdentifier none (some device1))

/-- `cancelDeviceConnection`: registry check, connected check; an injected
disconnection error is delivered to connection listeners and then raised
without any state change; otherwise the device leaves the connected set,
listeners fire with a null error, and the discovered-services cache entry is
evicted. -/
def cancelDeviceConnection (st : ManagerState) (deviceIdentifier : String) :
    Except MockError MockDevice × ManagerState × List Event :=
  match jsGet st.discoveredDevices deviceIdentifier with
  | none => (.error ⟨"Device " ++ deviceIdentifier ++ " not found"⟩, st, [])
  | some device =>
    if isDeviceConnected st deviceIdentifier = false then
      (.error ⟨"Device " ++ deviceIdentifier ++ " is not connected"⟩, st, [])
    else
      match jsGet st.disconnectionErrors deviceIdentifier with
      | some error =>
        (.error error, st, notifyConnectionListeners st deviceIdentifier (some error) (some device))
      | none =>
        let st1 := { st with connectedDevices := jsSetDelete st.connectedDevices deviceIdentifier }
        let evs := notifyConnectionListeners st1 deviceIdentifier none (some device)
        let st2 := { st1 with discoveredServices := jsDelete st1.discoveredServices deviceIdentifier }
        (.ok device, st2, evs)

/-- `simulateDeviceDisconnection`: when the device is in the connected set
it is removed, its discovered-services cache entry is evicted, and every
connection listener fires with the supplied error or the default
"Simulated disconnection" error; otherwise nothing happens. -/
def simulateDeviceDisconnection (st : ManagerState) (deviceIdentifier : String)
    (error : Option MockError) : ManagerState × List Event :=
  if isDeviceConnected st deviceIdentifier then
    let st1 := { st with
      connectedDevices := jsSetDelete st.connectedDevices deviceIdentifier
      discoveredServices := jsDelete st.discoveredServices deviceIdentifier }
    let device := jsGet st.discoveredDevices deviceIdentifier
    (st1, notifyConnectionListeners st deviceIdentifier
            (some (error.getD ⟨"Simulated disconnection"⟩)) device)
  else (st, [])

/-- `simulateConnectionError`. -/
def simulateConnectionError (st : ManagerState) (deviceIdentifier : String) (error : MockError) :
    ManagerState :=
  { st with connectionErrors := jsSet st.connectionErrors deviceIdentifier error }

/-- `simulateDisconnectionError`. -/
def simulateDisconnectionError (st : ManagerState) (deviceIdentifier : String) (error : MockError) :
    ManagerState :=
  { st with disconnectionErrors := jsSet st.disconnectionErrors deviceIdentifier error }

/-- `discoverAllServicesAndCharacteristicsForDevice`: connected and registry
checks, then the device's captured metadata is projected to `Service`
records and stored in the discovered-services cache. -/
def discoverAllServicesAndCharacteristicsForDevice (st : ManagerState)
    (deviceIdentifier : String) : Except MockError MockDevice × ManagerState × List Event :=
  if isDeviceConnected st deviceIdentifier = false then
    (.error ⟨"Device not connected"⟩, st, [])
  else
    match jsGet st.discoveredDevices deviceIdentifier with
    | none => (.error ⟨"Device not found"⟩, st, [])
    | some device =>
      let services :=
        match device.servicesMeta with
        | some meta => meta.map (fun s =>
            ({ uuid := s.uuid, deviceID := device.id, isPrimary := some true } : Service))
        | none => []
      (.ok device,
       { st with discoveredServices := jsSet st.discoveredServices deviceIdentifier services }, [])

/-- `servicesForDevice`: rejects with the not-discovered error before
discovery, otherwise returns the cached list. -/
def servicesForDevice (st : ManagerState) (deviceIdentifier : String) :
    Except MockError (List Service) :=
  if jsHas st.discoveredServices deviceIdentifier = false then
    .error ⟨"Services not discovered for device"⟩
  else .ok ((jsGet st.discoveredServices deviceIdentifier).getD [])

/-- Argument record of `addMockDevice` (`Partial MockDevice` plus required
id and optional service metadata). -/
structure AddDeviceInput where
  id : String
  name : Option String := none
  rssi : Option Int := none
  mtu : Option Nat := none
  manufacturerData : Option String := none
  serviceData : Option (List (String × String)) := none
  serviceUUIDs : Option (List String) := none
  isConnectable : Option Bool := none
  services : Option (List ServiceMetadata) := none
  deriving DecidableEq, Repr

/-- `addMockDevice`: defaults connectable to true, stores service metadata,
builds the stored `MockDevice` (MTU `device.mtu || 517`, advertised UUID
list derived from metadata when present) and registers it. -/
def addMockDevice (st : ManagerState) (device : AddDeviceInput) : ManagerState :=
  let connectable := device.isConnectable.getD true
  let st1 :=
    match device.services with
    | some meta => { st with serviceMetadata := jsSet st.serviceMetadata device.id meta }
    | none => st
  let mockDevice : MockDevice :=
    { id := device.id
      name := device.name
      rssi := device.rssi
      mtu := numOr device.mtu 517
      manufacturerData := device.manufacturerData
      serviceData := device.serviceData
      serviceUUIDs :=
        match device.services with
        | some meta => some (meta.map (fun s => s.uuid))
        | none => device.serviceUUIDs
      isConnectable := some connectable
      servicesMeta := device.services }
  { st1 with discoveredDevices := jsSet st1.discoveredDevices device.id mockDevice }

/-- `simulateDeviceDiscovery`: synchronously delivers every registered
device (in registration order, no UUID filtering) to the scan listener, then
(re)arms the scan interval timer. -/
def simulateDeviceDiscovery (st : ManagerState) : ManagerState × List Event :=
  let devices := st.discoveredDevices.map Prod.snd
  let events := if st.scanListener then devices.map (fun d => Event.scan none (some d)) else []
  ({ st with scanIntervalArmed := true }, events)

/-- State of the manager right after a successful `startDeviceScan`. -/
def afterStartScan (st : ManagerState) (uuids : Option (List String))
    (options : Option ScanOptions) : ManagerState :=
  { st with
    isScanning := true
    scanListener := true
    scanOptions := options.getD {}
    scanUUIDs := uuids
    scanIntervalArmed := true }

/-- `startDeviceScan`: throws when already scanning, otherwise records the
listener, options and filter, and runs `simulateDeviceDiscovery`. -/
def startDeviceScan (st : ManagerState) (uuids : Option (List String))
    (options : Option ScanOptions) : Except MockError (ManagerState × List Event) :=
  if st.isScanning then .error ⟨"Scan already in progress"⟩
  else
    let st1 := { st with
      isScanning := true
      scanListener := true
      scanOptions := options.getD {}
      scanUUIDs := uuids }
    .ok (simulateDeviceDiscovery st1)

/-- One tick of the armed scan interval timer.  `randomIndex` models
`Math.floor(Math.random() * size)` and `deliverRoll` the
`Math.random() > 0.7` duplicate-throttling roll. -/
def scanTick (st : ManagerState) (randomIndex : Nat) (deliverRoll : Bool) :
    ManagerState × List Event :=
  if !st.isScanning || !st.scanListener then (st, [])
  else
    match st.scanErrorSimulation with
    | some e => ({ st with scanErrorSimulation := none }, [Event.scan (some e) none])
    | none =>
      match st.discoveredDevices[randomIndex % st.discoveredDevices.length]? with
      | some p =>
        if st.scanOptions.allowDuplicates = some true || deliverRoll then
          (st, [Event.scan none (some p.2)])
        else (st, [])
      | none => (st, [])

/-- Static-metadata lookup chain of `readCharacteristicForDevice`:
`serviceMetadata.get(device)`, `find` the service, `find` the
characteristic. -/
def charMetadataFor (st : ManagerState) (deviceIdentifier serviceUUID characteristicUUID : String) :
    Option CharacteristicMetadata :=
  ((jsGet st.serviceMetadata deviceIdentifier).bind
      (fun meta => meta.find? (fun s => s.uuid == serviceUUID))).bind
    (fun service => service.characteristics.find? (fun c => c.uuid == characteristicUUID))

/-- Characteristic composed by the success path of
`readCharacteristicForDevice`: live value (`get(key) || null`), per-flag
permissive defaults over the optional metadata, and descriptor values
(`descriptorValues.get(k) || desc.value || null`). -/
def composedCharacteristic (st : ManagerState)
    (deviceIdentifier serviceUUID characteristicUUID : String) : Characteristic :=
  let key := getCharacteristicKey deviceIdentifier serviceUUID characteristicUUID
  let charMetadata := charMetadataFor st deviceIdentifier serviceUUID characteristicUUID
  let descriptors := charMetadata.bind (fun cm => cm.descriptors.map (fun ds =>
    ds.map (fun desc =>
      ({ uuid := desc.uuid
         characteristicUUID := characteristicUUID
         serviceUUID := serviceUUID
         deviceID := deviceIdentifier
         value :=
           match truthyStr (jsGet st.descriptorValues
               (getDescriptorKey deviceIdentifier serviceUUID characteristicUUID desc.uuid)) with
           | some v => some v
           | none => truthyStr desc.value } : Descriptor))))
  { uuid := characteristicUUID
    serviceUUID := serviceUUID
    deviceID := deviceIdentifier
    value := truthyGet st.characteristicValues key
    isNotifiable := (charMetadata.bind (fun c => c.isNotifiable)).getD true
    isIndicatable := (charMetadata.bind (fun c => c.isIndicatable)).getD false
    isNotifying := some ((charMetadata.bind (fun c => c.isNotifying)).getD false)
    isReadable := some ((charMetadata.bind (fun c => c.isReadable)).getD true)
    isWritableWithResponse :=
      some ((charMetadata.bind (fun c => c.isWritableWithResponse)).getD false)
    isWritableWithoutResponse :=
      some ((charMetadata.bind (fun c => c.isWritableWithoutResponse)).getD false)
    properties := charMetadata.bind (fun c => c.properties)
    descriptors := descriptors }

/-- `readCharacteristicForDevice`: connected check, injected-error check,
then the composed characteristic is returned.  The read delay does not
change the settled value. -/
def readCharacteristicForDevice (st : ManagerState)
    (deviceIdentifier serviceUUID characteristicUUID : String) :
    Except MockError Characteristic × ManagerState × List Event :=
  if isDeviceConnected st deviceIdentifier = false then
    (.error ⟨"Device " ++ deviceIdentifier ++ " is not connected"⟩, st, [])
  else
    let key := getCharacteristicKey deviceIdentifier serviceUUID characteristicUUID
    match jsGet st.readErrors key with
    | some error => (.error error, st, [])
    | none =>
      (.ok (composedCharacteristic st deviceIdentifier serviceUUID characteristicUUID), st, [])

/-- `setCharacteristicValueForReading`. -/
def setCharacteristicValueForReading (st : ManagerState)
    (deviceIdentifier serviceUUID characteristicUUID value : String) : ManagerState :=
  let key := getCharacteristicKey deviceIdentifier serviceUUID characteristicUUID
  { st with characteristicValues := jsSet st.characteristicValues key value }

/-- `simulateCharacteristicReadError`. -/
def simulateCharacteristicReadError (st : ManagerState)
    (deviceIdentifier serviceUUID characteristicUUID : String) (error : MockError) : ManagerState :=
  let key := getCharacteristicKey deviceIdentifier serviceUUID characteristicUUID
  { st with readErrors := jsSet st.readErrors key error }

/-- `notifyWriteListeners`: the single registered write observer, if any. -/
def notifyWriteListeners (st : ManagerState) (key value : String) : List Event :=
  match jsGet st.writeListeners key with
  | some l => [Event.write l value]
  | none => []

/-- `writeCharacteristicWithResponseForDevice`: connected check, then the
with-response error map; on error nothing is mutated, otherwise the live
value is stored, the write observer fires, and the call resolves with a
characteristic carrying the new value. -/
def writeCharacteristicWithResponseForDevice (st : ManagerState)
    (deviceIdentifier serviceUUID characteristicUUID base64Value : String) :
    Except MockError Characteristic × ManagerState × List Event :=
  if isDeviceConnected st deviceIdentifier = false then
    (.error ⟨"Device " ++ deviceIdentifier ++ " is not connected"⟩, st, [])
  else
    let key := getCharacteristicKey deviceIdentifier serviceUUID characteristicUUID
    match jsGet st.writeWithResponseErrors key with
    | some error => (.error error, st, [])
    | none =>
      let st1 := { st with characteristicValues := jsSet st.characteristicValues key base64Value }
      (.ok
        { uuid := characteristicUUID
          serviceUUID := serviceUUID
          deviceID := deviceIdentifier
          value := some base64Value
          isNotifiable := true
          isIndicatable := false }, st1, notifyWriteListeners st key base64Value)

/-- `writeCharacteristicWithoutResponseForDevice`: identical to the
with-response variant but consulting the independent without-response error
map. -/
def writeCharacteristicWithoutResponseForDevice (st : ManagerState)
    (deviceIdentifier serviceUUID characteristicUUID base64Value : String) :
    Except MockError Characteristic × ManagerState × List Event :=
  if isDeviceConnected st deviceIdentifier = false then
    (.error ⟨"Device " ++ deviceIdentifier ++ " is not connected"⟩, st, [])
  else
    let key := getCharacteristicKey deviceIdentifier serviceUUID characteristicUUID
    match jsGet st.writeWithoutResponseErrors key with
    | some error => (.error error, st, [])
    | none =>
      let st1 := { st with characteristicValues := jsSet st.characteristicValues key base64Value }
      (.ok
        { uuid := characteristicUUID
          serviceUUID := serviceUUID
          deviceID := deviceIdentifier
          value := some base64Value
          isNotifiable := true
          isIndicatable := false }, st1, notifyWriteListeners st key base64Value)

/-- `simulateWriteWithResponseError`. -/
def simulateWriteWithResponseError (st : ManagerState)
    (deviceIdentifier serviceUUID characteristicUUID : String) (error : MockError) : ManagerState :=
  let key := getCharacteristicKey deviceIdentifier serviceUUID characteristicUUID
  { st with writeWithResponseErrors := jsSet st.writeWithResponseErrors key error }

/-- `simulateWriteWithoutResponseError`. -/
def simulateWriteWithoutResponseError (st : ManagerState)
    (deviceIdentifier serviceUUID characteristicUUID : String) (error : MockError) : ManagerState :=
  let key := getCharacteristicKey deviceIdentifier serviceUUID characteristicUUID
  { st with writeWithoutResponseErrors := jsSet st.writeWithoutResponseErrors key error }

/-- `stopSimulatedNotificationsForKey`: cancels and forgets the key's
notification timer (a no-op when none is armed). -/
def stopSimulatedNotificationsForKey (st : ManagerState) (key : String) : ManagerState :=
  { st with notificationIntervals := jsDelete st.notificationIntervals key }

/-- `startSimulatedNotifications`: replaces any existing timer for the key
and arms a new one with the given period. -/
def startSimulatedNotifications (st : ManagerState)
    (deviceIdentifier serviceUUID characteristicUUID : String) (intervalMs : Nat) : ManagerState :=
  let key := getCharacteristicKey deviceIdentifier serviceUUID characteristicUUID
  let st1 := stopSimulatedNotificationsForKey st key
  { st1 with notificationIntervals := jsSet st1.notificationIntervals key intervalMs }

/-- `monitorCharacteristicForDevice`: connected check; ensures the key maps
to a listener array (allocating a fresh array when absent), pushes the
listener onto that array, schedules one asynchronous delivery of a non-empty
current value to the new listener, and returns the subscription whose
`remove` closure captures the array. -/
def monitorCharacteristicForDevice (st : ManagerState)
    (deviceIdentifier serviceUUID characteristicUUID : String) (listener : Nat) :
    Except MockError MonitorSubscription × ManagerState × List Event :=
  if isDeviceConnected st deviceIdentifier = false then
    (.error ⟨"Device " ++ deviceIdentifier ++ " is not connected"⟩, st, [])
  else
    let key := getCharacteristicKey deviceIdentifier serviceUUID characteristicUUID
    let step :=
      match jsGet st.monitoredCharacteristics key with
      | some arrId => (st, arrId)
      | none =>
        ({ st with
           monitoredCharacteristics := jsSet st.monitoredCharacteristics key st.monitorArrays.length
           monitorArrays := st.monitorArrays ++ [[]] }, st.monitorArrays.length)
    let st1 := step.1
    let arrId := step.2
    let st2 := { st1 with monitorArrays :=
                   st1.monitorArrays.set arrId ((st1.monitorArrays.getD arrId []) ++ [listener]) }
    let events :=
      match truthyGet st2.characteristicValues key with
      | some v =>
        [Event.monitorScheduled listener
          { uuid := characteristicUUID
            serviceUUID := serviceUUID
            deviceID := deviceIdentifier
            value := some v
            isNotifiable := true
            isIndicatable := false }]
      | none => []
    (.ok { arrId := arrId, listener := listener, key := key }, st2, events)

/-- The `remove` closure of a monitor subscription: filters the listener
out of the array captured at registration time (not the array currently in
the map); when the filtered copy is empty it deletes the key's current map
entry and stops the key's notification timer, otherwise it stores the
filtered copy (a fresh array) under the key. -/
def removeMonitorSubscription (st : ManagerState) (sub : MonitorSubscription) : ManagerState :=
  let listeners := st.monitorArrays.getD sub.arrId []
  let updatedListeners := listeners.filter (fun l => l != sub.listener)
  if updatedListeners.isEmpty then
    stopSimulatedNotificationsForKey
      { st with monitoredCharacteristics := jsDelete st.monitoredCharacteristics sub.key }
      sub.key
  else
    { st with
      monitoredCharacteristics := jsSet st.monitoredCharacteristics sub.key st.monitorArrays.length
      monitorArrays := st.monitorArrays ++ [updatedListeners] }

/-- `notifyCharacteristicChange`: delivers the current non-empty value to
every listener in the array the key currently maps to. -/
def notifyCharacteristicChange (st : ManagerState)
    (deviceIdentifier serviceUUID characteristicUUID : String) : List Event :=
  let key := getCharacteristicKey deviceIdentifier serviceUUID characteristicUUID
  let value := truthyGet st.characteristicValues key
  let listeners :=
    match jsGet st.monitoredCharacteristics key with
    | some arrId => st.monitorArrays.getD arrId []
    | none => []
  match value with
  | some v =>
    if listeners.isEmpty then []
    else
      listeners.map (fun l => Event.monitorNotify l none
        (some { uuid := characteristicUUID
                serviceUUID := serviceUUID
                deviceID := deviceIdentifier
                value := some v
                isNotifiable := true
                isIndicatable := false }))
  | none => []

/-- `readDescriptorForCharacteristic` (source argument order: char, service,
device, descriptor): connected check, injected-error check, then the stored
descriptor value. -/
def readDescriptorForCharacteristic (st : ManagerState)
    (characteristicUUID serviceUUID deviceIdentifier descriptorUUID : String) :
    Except MockError Descriptor × ManagerState × List Event :=
  if isDeviceConnected st deviceIdentifier = false then
    (.error ⟨"Device " ++ deviceIdentifier ++ " is not connected"⟩, st, [])
  else
    let key := getDescriptorKey deviceIdentifier serviceUUID characteristicUUID descriptorUUID
    match jsGet st.descriptorErrors key with
    | some error => (.error error, st, [])
    | none =>
      (.ok
        { uuid := descriptorUUID
          characteristicUUID := characteristicUUID
          serviceUUID := serviceUUID
          deviceID := deviceIdentifier
          value := truthyStr (jsGet st.descriptorValues key) }, st, [])

/-- `simulateDescriptorError`. -/
def simulateDescriptorError (st : ManagerState)
    (deviceIdentifier serviceUUID characteristicUUID descriptorUUID : String)
    (error : MockError) : ManagerState :=
  let key := getDescriptorKey deviceIdentifier serviceUUID characteristicUUID descriptorUUID
  { st with descriptorErrors := jsSet st.descriptorErrors key error }

/-- Manager with the bare device "d" registered and connected; the common
starting point of the concrete scenarios below. -/
def connectedBase : ManagerState :=
  (connectToDevice (addMockDevice initialManagerState { id := "d" }) "d" none).2.1

/-- Device record that `addMockDevice` stores for the bare input
with id "d" (all defaults applied). -/
def devD : MockDevice :=
  { id := "d", isConnectable := some true }

/-- Looking up the key just written by `jsSet` yields the written value. -/
theorem jsGet_jsSet_self {α : Type} (m : List (String × α)) (k : String) (v : α) :
    jsGet (jsSet m k v) k = some v := by
  induction m with
  | nil => simp [jsSet, jsGet]
  | cons p t ih =>
    cases hb : p.1 == k
    · simp [jsSet, hb, jsGet, ih]
    · simp [jsSet, hb, jsGet]

/-- Looking up a key just removed by `jsDelete` yields nothing. -/
theorem jsGet_jsDelete_self {α : Type} (m : List (String × α)) (k : String) :
    jsGet (jsDelete m k) k = none := by
  induction m with
  | nil => simp [jsDelete, jsGet]
  | cons p t ih =>
    cases hb : p.1 == k
    · simp [jsDelete, hb, jsGet, ih]
    · simp [jsDelete, hb, ih]

/-- A key removed by `jsDelete` is no longer present. -/
theorem jsHas_jsDelete_self {α : Type} (m : List (String × α)) (k : String) :
    jsHas (jsDelete m k) k = false := by
  simp [jsHas, jsGet_jsDelete_self]

/-- An element removed by `jsSetDelete` is no longer contained. -/
theorem contains_jsSetDelete_self (s : List String) (x : String) :
    (jsSetDelete s x).contains x = false := by
  induction s with
  | nil => rfl
  | cons y t ih =>
    by_cases h : y = x
    · simp only [jsSetDelete, List.filter_cons] at ih ⊢
      simp [h, ih]

    · have h2 : ¬ x = y := fun hh => h hh.symm
      simp [jsSetDelete, List.filter_cons, bne_iff_ne, h, h2, List.contains_cons]

/-- C10: for a device id not in the connected set,
`simulateDeviceDisconnection` is a silent no-op: it returns the state
unchanged and fires no listener. -/
theorem simulateDisconnection_noop_when_not_connected (st : ManagerState) (d : String)
    (err : Option MockError) (h : isDeviceConnected st d = false) :
    simulateDeviceDisconnection st d err = (st, []) := by
  simp [simulateDeviceDisconnection, h]

/-- Witness for C10 at a concrete input: a fresh manager and an unknown id. -/
theorem simulateDisconnection_noop_when_not_connected_witness :
    simulateDeviceDisconnection initialManagerState "x" none = (initialManagerState, []) :=
  simulateDisconnection_noop_when_not_connected initialManagerState "x" none rfl

/-- C2 (amended): `clearAllSimulatedErrors` clears the scan, connection,
read, write-with-response, write-without-response and disconnection error
records, and leaves the descriptor error map untouched. -/
theorem clearAll_clears_six_surfaces (st : ManagerState) :
    (clearAllSimulatedErrors st).scanErrorSimulation = none ∧
    (clearAllSimulatedErrors st).connectionErrors = [] ∧
    (clearAllSimulatedErrors st).readErrors = [] ∧
    (clearAllSimulatedErrors st).writeWithResponseErrors = [] ∧
    (clearAllSimulatedErrors st).writeWithoutResponseErrors = [] ∧
    (clearAllSimulatedErrors st).disconnectionErrors = [] ∧
    (clearAllSimulatedErrors st).descriptorErrors = st.descriptorErrors :=
  ⟨rfl, rfl, rfl, rfl, rfl, rfl, rfl⟩

/-- Manager with errors injected on every fault surface, including a
descriptor error for key d|s|c|x. -/
def c2injected : ManagerState :=
  simulateDescriptorError
    (simulateWriteWithoutResponseError
      (simulateWriteWithResponseError
        (simulateCharacteristicReadError
          (simulateDisconnectionError
            (simulateConnectionError (simulateScanError connectedBase ⟨"scanE"⟩) "d" ⟨"connE"⟩)
            "d" ⟨"discE"⟩)
          "d" "s" "c" ⟨"readE"⟩)
        "d" "s" "c" ⟨"wwrE"⟩)
      "d" "s" "c" ⟨"wworE"⟩)
    "d" "s" "c" "x" ⟨"descE"⟩

/-- C2 counterexample: after `clearAllSimulatedErrors` the injected
descriptor error record is still present and a subsequent descriptor read
on that surface still observes it, contrary to the claim. -/
theorem clearAll_leaves_descriptor_error :
    jsGet (clearAllSimulatedErrors c2injected).descriptorErrors
        (getDescriptorKey "d" "s" "c" "x") = some ⟨"descE"⟩ ∧
    readDescriptorForCharacteristic (clearAllSimulatedErrors c2injected) "c" "s" "d" "x" =
      (.error ⟨"descE"⟩, clearAllSimulatedErrors c2injected, []) :=
  ⟨rfl, rfl⟩

/-- C6: with the adapter powered on, connecting to a registered device
whose connectable flag is false rejects with the NotConnectable error and
returns the state unchanged with no listener invocation. -/
theorem connect_notConnectable_rejects (st : ManagerState) (d : String) (dev : MockDevice)
    (options : Option ConnectionOptions)
    (hstate : st.currentState = State.PoweredOn)
    (hdev : jsGet st.discoveredDevices d = some dev)
    (hflag : dev.isConnectable = some false) :
    connectToDevice st d options =
      (.error ⟨"Device " ++ d ++ " is not connectable"⟩, st, []) := by
  simp [connectToDevice, hstate, hdev, hflag]

/-- Manager with a non-connectable device "n" registered. -/
def c6st : ManagerState :=
  addMockDevice initialManagerState { id := "n", isConnectable := some false }

/-- Witness for C6 at a concrete input. -/
theorem connect_notConnectable_rejects_witness :
    connectToDevice c6st "n" none =
      (.error ⟨"Device " ++ "n" ++ " is not connectable"⟩, c6st, []) :=
  connect_notConnectable_rejects c6st "n" { id := "n", isConnectable := some false } none
    rfl rfl rfl

/-- C3: with a write-with-response error injected for a key (and no
without-response error), the with-response write rejects with exactly the
injected error and leaves the whole state — in particular the stored
characteristic value — unchanged, while a subsequent without-response write
on the same key succeeds and stores its value. -/
theorem write_error_scoped_per_operation_kind (st : ManagerState) (d s c v w : String)
    (e : MockError)
    (hconn : isDeviceConnected st d = true)
    (herr : jsGet st.writeWithResponseErrors (getCharacteristicKey d s c) = some e)
    (hno : jsGet st.writeWithoutResponseErrors (getCharacteristicKey d s c) = none) :
    writeCharacteristicWithResponseForDevice st d s c v = (.error e, st, []) ∧
    writeCharacteristicWithoutResponseForDevice st d s c w =
      (.ok { uuid := c, serviceUUID := s, deviceID := d, value := some w,
             isNotifiable := true, isIndicatable := false },
       { st with characteristicValues := jsSet st.characteristicValues (getCharacteristicKey d s c) w },
       notifyWriteListeners st (getCharacteristicKey d s c) w) ∧
    jsGet (jsSet st.characteristicValues (getCharacteristicKey d s c) w)
      (getCharacteristicKey d s c) = some w := by
  refine ⟨?_, ?_, jsGet_jsSet_self st.characteristicValues (getCharacteristicKey d s c) w⟩
  · simp [writeCharacteristicWithResponseForDevice, hconn, herr]
  · simp [writeCharacteristicWithoutResponseForDevice, hconn, hno]

/-- Manager with device "d" connected and a write-with-response error
injected for key d|s|c. -/
def c3st : ManagerState :=
  simulateWriteWithResponseError connectedBase "d" "s" "c" ⟨"wwrE"⟩

/-- Witness for C3 at a concrete input. -/
theorem write_error_scoped_per_operation_kind_witness :
    writeCharacteristicWithResponseForDevice c3st "d" "s" "c" "v1" =
      (.error ⟨"wwrE"⟩, c3st, []) ∧
    writeCharacteristicWithoutResponseForDevice c3st "d" "s" "c" "v2" =
      (.ok { uuid := "c", serviceUUID := "s", deviceID := "d", value := some "v2",
             isNotifiable := true, isIndicatable := false },
       { c3st with characteristicValues := jsSet c3st.characteristicValues (getCharacteristicKey "d" "s" "c") "v2" },
       notifyWriteListeners c3st (getCharacteristicKey "d" "s" "c") "v2") ∧
    jsGet (jsSet c3st.characteristicValues (getCharacteristicKey "d" "s" "c") "v2")
      (getCharacteristicKey "d" "s" "c") = some "v2" :=
  write_error_scoped_per_operation_kind c3st "d" "s" "c" "v1" "v2" ⟨"wwrE"⟩ rfl rfl rfl

/-- C4: with an injected disconnection error for a connected registered
device, `cancelDeviceConnection` fires the device's connection listeners
with that error, rejects with the same error, and returns the state
unchanged — the device stays in the connected set and the
discovered-services cache entry is not evicted. -/
theorem cancel_disconnect_error_keeps_connected (st : ManagerState) (d : String)
    (dev : MockDevice) (e : MockError)
    (hdev : jsGet st.discoveredDevices d = some dev)
    (hconn : isDeviceConnected st d = true)
    (herr : jsGet st.disconnectionErrors d = some e) :
    cancelDeviceConnection st d =
      (.error e, st, notifyConnectionListeners st d (some e) (some dev)) ∧
    isDeviceConnected (cancelDeviceConnection st d).2.1 d = true ∧
    jsGet (cancelDeviceConnection st d).2.1.discoveredServices d =
      jsGet st.discoveredServices d := by
  have h : cancelDeviceConnection st d =
      (.error e, st, notifyConnectionListeners st d (some e) (some dev)) := by
    simp [cancelDeviceConnection, hdev, hconn, herr]
  exact ⟨h, by rw [h]; exact hconn, by rw [h]⟩

/-- Manager with device "d" connected, its services discovered, a
connection listener (id 7) registered, and a disconnection error injected. -/
def c4st : ManagerState :=
  simulateDisconnectionError
    ((discoverAllServicesAndCharacteristicsForDevice
        (onDeviceDisconnected connectedBase "d" 7) "d").2.1)
    "d" ⟨"discE"⟩

/-- Witness for C4 at a concrete input. -/
theorem cancel_disconnect_error_keeps_connected_witness :
    cancelDeviceConnection c4st "d" =
      (.error ⟨"discE"⟩, c4st, notifyConnectionListeners c4st "d" (some ⟨"discE"⟩) (some devD)) ∧
    isDeviceConnected (cancelDeviceConnection c4st "d").2.1 "d" = true ∧
    jsGet (cancelDeviceConnection c4st "d").2.1.discoveredServices "d" =
      jsGet c4st.discoveredServices "d" :=
  cancel_disconnect_error_keeps_connected c4st "d" devD ⟨"discE"⟩ rfl rfl rfl

/-- C5: on a connected device, `simulateDeviceDisconnection` removes it
from the connected set, evicts the discovered-services cache entry (so
`servicesForDevice` rejects with the not-discovered error), and fires every
connection listener with the supplied error or the default
"Simulated disconnection" error — never with a null error argument. -/
theorem simulateDisconnection_evicts_and_signals (st : ManagerState) (d : String)
    (err : Option MockError)
    (hconn : isDeviceConnected st d = true) :
    isDeviceConnected (simulateDeviceDisconnection st d err).1 d = false ∧
    servicesForDevice (simulateDeviceDisconnection st d err).1 d =
      .error ⟨"Services not discovered for device"⟩ ∧
    (simulateDeviceDisconnection st d err).2 =
      notifyConnectionListeners st d (some (err.getD ⟨"Simulated disconnection"⟩))
        (jsGet st.discoveredDevices d) ∧
    (∀ l dv, Event.connection l none dv ∉ (simulateDeviceDisconnection st d err).2) := by
  have h : simulateDeviceDisconnection st d err =
      ({ st with
         connectedDevices := jsSetDelete st.connectedDevices d
         discoveredServices := jsDelete st.discoveredServices d },
       notifyConnectionListeners st d (some (err.getD ⟨"Simulated disconnection"⟩))
         (jsGet st.discoveredDevices d)) := by
    simp [simulateDeviceDisconnection, hconn]
  refine ⟨?_, ?_, ?_, ?_⟩
  · rw [h]
    simpa [isDeviceConnected] using contains_jsSetDelete_self st.connectedDevices d
  · rw [h]
    simp [servicesForDevice, jsHas_jsDelete_self]
  · rw [h]
  · intro l dv hmem
    rw [h] at hmem
    simp [notifyConnectionListeners] at hmem

/-- Manager with device "d" connected, services discovered, and two
connection listeners (ids 3 and 4) registered. -/
def c5st : ManagerState :=
  (discoverAllServicesAndCharacteristicsForDevice
      (onDeviceDisconnected (onDeviceDisconnected connectedBase "d" 3) "d" 4) "d").2.1

/-- Witness for C5 at a concrete input (no explicit error supplied, so the
default error is delivered). -/
theorem simulateDisconnection_evicts_and_signals_witness :
    isDeviceConnected (simulateDeviceDisconnection c5st "d" none).1 "d" = false ∧
    servicesForDevice (simulateDeviceDisconnection c5st "d" none).1 "d" =
      .error ⟨"Services not discovered for device"⟩ ∧
    (simulateDeviceDisconnection c5st "d" none).2 =
      notifyConnectionListeners c5st "d" (some ((none : Option MockError).getD
        ⟨"Simulated disconnection"⟩)) (jsGet c5st.discoveredDevices "d") ∧
    (∀ l dv, Event.connection l none dv ∉ (simulateDeviceDisconnection c5st "d" none).2) :=
  simulateDisconnection_evicts_and_signals c5st "d" none rfl

/-- C8: when no scan is in progress, `startDeviceScan` synchronously
delivers every registered device to the listener, once each, in
registration order (the association-list order of the registry), with a
null error, for any UUID filter and options; the returned event list is the
whole synchronous output of the call, while timer-driven deliveries only
ever arise from later `scanTick` steps on the returned state. -/
theorem startScan_initial_burst (st : ManagerState) (uuids : Option (List String))
    (options : Option ScanOptions)
    (h : st.isScanning = false) :
    startDeviceScan st uuids options =
      .ok (afterStartScan st uuids options,
           (st.discoveredDevices.map Prod.snd).map (fun d => Event.scan none (some d))) := by
  simp [startDeviceScan, simulateDeviceDiscovery, afterStartScan, h]

/-- Manager with devices "a" and "b" registered, in that order. -/
def c8st : ManagerState :=
  addMockDevice (addMockDevice initialManagerState { id := "a" }) { id := "b" }

/-- Witness for C8 at a concrete input. -/
theorem startScan_initial_burst_witness :
    startDeviceScan c8st none none =
      .ok (afterStartScan c8st none none,
           (c8st.discoveredDevices.map Prod.snd).map (fun d => Event.scan none (some d))) :=
  startScan_initial_burst c8st none none rfl

/-- C9: on a connected device with no injected read error,
`readCharacteristicForDevice` resolves for arbitrary service and
characteristic UUIDs — there is no NotFound rejection path — with the
composed characteristic, whose value is the stored live value (or null when
absent or empty) and whose flags take the permissive defaults
readable=true, notifiable=true, indicatable=false, both writable
flags=false when the key has no static metadata. -/
theorem read_never_notFound (st : ManagerState) (d s c : String)
    (hconn : isDeviceConnected st d = true)
    (herr : jsGet st.readErrors (getCharacteristicKey d s c) = none) :
    readCharacteristicForDevice st d s c = (.ok (composedCharacteristic st d s c), st, []) ∧
    (composedCharacteristic st d s c).value =
      truthyGet st.characteristicValues (getCharacteristicKey d s c) ∧
    (charMetadataFor st d s c = none →
      (composedCharacteristic st d s c).isReadable = some true ∧
      (composedCharacteristic st d s c).isNotifiable = true ∧
      (composedCharacteristic st d s c).isIndicatable = false ∧
      (composedCharacteristic st d s c).isWritableWithResponse = some false ∧
      (composedCharacteristic st d s c).isWritableWithoutResponse = some false) := by
  refine ⟨?_, rfl, ?_⟩
  · simp [readCharacteristicForDevice, hconn, herr]
  · intro hm
    simp [composedCharacteristic, hm]

/-- Witness for C9 at a concrete input: device "d" is connected and the
UUIDs s and c appear in no static metadata. -/
theorem read_never_notFound_witness :
    readCharacteristicForDevice connectedBase "d" "s" "c" =
      (.ok (composedCharacteristic connectedBase "d" "s" "c"), connectedBase, []) ∧
    (composedCharacteristic connectedBase "d" "s" "c").value =
      truthyGet connectedBase.characteristicValues (getCharacteristicKey "d" "s" "c") ∧
    (charMetadataFor connectedBase "d" "s" "c" = none →
      (composedCharacteristic connectedBase "d" "s" "c").isReadable = some true ∧
      (composedCharacteristic connectedBase "d" "s" "c").isNotifiable = true ∧
      (composedCharacteristic connectedBase "d" "s" "c").isIndicatable = false ∧
      (composedCharacteristic connectedBase "d" "s" "c").isWritableWithResponse = some false ∧
      (composedCharacteristic connectedBase "d" "s" "c").isWritableWithoutResponse = some false) :=
  read_never_notFound connectedBase "d" "s" "c" rfl rfl

/-- C7 (amended): both MTU-negotiation call sites set the device's MTU
field to min(requested, cap) where cap is the effective negotiation
ceiling `deviceMaxMTUs.get(id) || 512` — the value set by `setDeviceMaxMTU`
when it is nonzero, and 512 when never set or set to 0; the connect-time
path applies when a nonzero `requestMTU` option is supplied. -/
theorem mtu_negotiation_min_effective_cap (st : ManagerState) (d : String) (dev : MockDevice)
    (r : Nat)
    (hconn : isDeviceConnected st d = true)
    (hdev : jsGet st.discoveredDevices d = some dev) :
    (requestMTUForDevice st d r).1 =
      .ok { dev with mtu := min r (numOr (jsGet st.deviceMaxMTUs d) 512) } ∧
    jsGet (requestMTUForDevice st d r).2.1.discoveredDevices d =
      some { dev with mtu := min r (numOr (jsGet st.deviceMaxMTUs d) 512) } ∧
    (st.currentState = State.PoweredOn → dev.isConnectable ≠ some false →
      jsGet st.connectionErrors d = none → r ≠ 0 →
      (connectToDevice st d (some { requestMTU := some r })).1 =
        .ok { dev with mtu := min r (numOr (jsGet st.deviceMaxMTUs d) 512) } ∧
      jsGet (connectToDevice st d (some { requestMTU := some r })).2.1.discoveredDevices d =
        some { dev with mtu := min r (numOr (jsGet st.deviceMaxMTUs d) 512) }) := by
  refine ⟨?_, ?_, ?_⟩
  · simp [requestMTUForDevice, hconn, hdev]
  · simp [requestMTUForDevice, hconn, hdev, jsGet_jsSet_self]
  · intro h1 h2 h3 h4
    constructor
    · simp [connectToDevice, h1, hdev, h2, h3, h4]
    · simp [connectToDevice, h1, hdev, h2, h3, h4, jsGet_jsSet_self]

/-- Manager with device "d" connected and its negotiation cap explicitly
set to 0. -/
def c7zero : ManagerState := setDeviceMaxMTU connectedBase "d" 0

/-- C7 counterexample: with `setDeviceMaxMTU(d, 0)` the claim's cap is the
set value 0, so it demands a resulting MTU of min(100, 0) = 0; the code
treats the stored 0 as falsy (`|| 512`) and produces MTU 100 instead. -/
theorem mtu_zero_cap_counterexample :
    jsGet c7zero.deviceMaxMTUs "d" = some 0 ∧
    (requestMTUForDevice c7zero "d" 100).1 = .ok { devD with mtu := 100 } ∧
    ¬ (100 : Nat) = min 100 0 :=
  ⟨rfl, rfl, by decide⟩

/-- Manager with device "d" connected and its negotiation cap set to 150. -/
def c7cap : ManagerState := setDeviceMaxMTU connectedBase "d" 150

/-- State after requesting MTU 200 against the 150 cap. -/
def c7afterFirst : ManagerState := (requestMTUForDevice c7cap "d" 200).2.1

/-- Witness for C7 at the claim's concrete inputs: cap 150, request 200
yields 150, a later request of 100 yields 100. -/
theorem mtu_negotiation_min_effective_cap_witness :
    (requestMTUForDevice c7cap "d" 200).1 = .ok { devD with mtu := 150 } ∧
    (requestMTUForDevice c7afterFirst "d" 100).1 = .ok { devD with mtu := 100 } := by
  constructor
  · exact (mtu_negotiation_min_effective_cap c7cap "d" devD 200 rfl rfl).1
  · exact (mtu_negotiation_min_effective_cap c7afterFirst "d" { devD with mtu := 150 }
      100 rfl rfl).1

/-- Key d|s|c of the monitor scenario. -/
def c1key : String := getCharacteristicKey "d" "s" "c"

/-- Subscription returned by the first monitor registration below. -/
def c1sub : MonitorSubscription := { arrId := 0, listener := 0, key := c1key }

/-- State after registering monitor listener 0 for key d|s|c. -/
def c1afterFirstMonitor : ManagerState :=
  (monitorCharacteristicForDevice connectedBase "d" "s" "c" 0).2.1

/-- State after the first release of that subscription. -/
def c1afterFirstRemove : ManagerState := removeMonitorSubscription c1afterFirstMonitor c1sub

/-- State after a different listener (id 1) registers for the same key
after the first release. -/
def c1afterSecondMonitor : ManagerState :=
  (monitorCharacteristicForDevice c1afterFirstRemove "d" "s" "c" 1).2.1

/-- State after arming simulated notifications for the key (serving the new
listener). -/
def c1armed : ManagerState := startSimulatedNotifications c1afterSecondMonitor "d" "s" "c" 1000

/-- State after calling the same subscription's release a second time. -/
def c1final : ManagerState := removeMonitorSubscription c1armed c1sub

/-- C1: evaluation of the code at the failing input.  The first monitor
call returns the subscription; after release, re-registration of listener
1, and arming the key's notification timer, the second release call of the
same subscription filters the stale captured array (still `[0]`), finds it
empty, and therefore deletes the key's current map entry — which holds
listener 1 — and cancels the key's notification timer; a subsequent value
change then notifies nobody.  This contradicts the claim that the second
release never affects a listener registered after the first release. -/
theorem monitor_second_release_evicts_new_listener :
    (monitorCharacteristicForDevice connectedBase "d" "s" "c" 0).1 = .ok c1sub ∧
    jsGet c1afterSecondMonitor.monitoredCharacteristics c1key = some 1 ∧
    c1afterSecondMonitor.monitorArrays.getD 1 [] = [1] ∧
    jsGet c1armed.notificationIntervals c1key = some 1000 ∧
    jsGet c1final.monitoredCharacteristics c1key = none ∧
    c1final.notificationIntervals = [] ∧
    notifyCharacteristicChange
      (setCharacteristicValueForReading c1final "d" "s" "c" "v") "d" "s" "c" = [] :=
  ⟨rfl, rfl, rfl, rfl, rfl, rfl, rfl⟩

end BleMock
